import Mathlib

/-!
Verification of the aircraft maintenance planning MILP model built in
project.py. The script hardcodes a single problem instance and builds a
mixed-integer linear model over binary replacement indicators X[a,c,s],
binary slot-assignment indicators Y[a,s] and integer lease counters
L[d], L_new[d]. We embed the instance data, the constraint system and
the objective terms, and prove properties of the feasible-solution set.
-/

namespace AircraftMaint

/-- Set of aircraft, line 6 of project.py: A = [0, 1]. -/
def A : List Nat := [0, 1]

/-- Components of each aircraft, line 7: four cooling units per aircraft. -/
def C : Nat → List Nat
  | 0 => [0, 1, 2, 3]
  | 1 => [0, 1, 2, 3]
  | _ => []

/-- Maintenance slots, line 8: S = [0, 1, 2]. -/
def S : List Nat := [0, 1, 2]

/-- Planning start date, line 9. -/
def d_0 : Nat := 0

/-- Planning horizon in days, line 10. -/
def PH : Nat := 7

/-- Component repair lead time in days, line 11. -/
def Delta : Nat := 3

/-- All dates, line 12: list(range(d_0, d_0 + PH + Delta)) = [0, ..., 9]. -/
def days : List Nat := List.range' d_0 (PH + Delta)

/-- Slot-to-date mapping, line 15: slot 0 on day 1, slot 1 on day 3, slot 2 on day 5. -/
def d_s : Nat → Nat
  | 0 => 1
  | 1 => 3
  | 2 => 5
  | _ => 0

/-- Slot capacity, line 16: every slot holds at most one aircraft. -/
def m_s : Nat → Int := fun _ => 1

/-- Slots available to each aircraft, line 17: all slots for every aircraft. -/
def S_a : Nat → List Nat := fun _ => S

/-- Fixed component replacement cost, line 20. -/
def c_fix : ℚ := 100

/-- Extra cost on failure, line 21. -/
def c_ex : ℚ := 500

/-- Slot assignment cost, line 22. -/
def c_s : Nat → ℚ := fun _ => 200

/-- Daily cost of a leased part, line 23. -/
def c_Ld : ℚ := 50

/-- Cost of a newly leased part, line 24. -/
def c_Lf : ℚ := 200

/-- RUL-based failure probability, line 27: min(0.1 * (d - d_0), 1.0). -/
def P_fail (a c d : Nat) : ℚ := min ((1 / 10 : ℚ) * ((d : ℚ) - (d_0 : ℚ))) 1

/-- Install date of every component, line 29: all installed at d_0 = 0. -/
def d_install : Nat → Nat → Nat := fun _ _ => 0

/-- Spare parts on hand at the start of each date, line 31: two per day. -/
def S_begin : Nat → Int := fun _ => 2

/-- Dictionary lookup S_begin.get(d, default) over integer keys, line 109:
the dictionary has keys d_0, ..., d_0 + PH + Delta - 1, each mapped to 2;
any other key yields the default. -/
def S_begin_get (d : Int) (dft : Int) : Int :=
  if (d_0 : Int) ≤ d ∧ d < (d_0 : Int) + (PH : Int) + (Delta : Int) then 2 else dft

/-- Critical aircraft, line 35: only aircraft 0. -/
def A_r : List Nat := [0]

/-- Component combinations of aircraft 0 that must keep two units working, line 36. -/
def G_a : Nat → List (List Nat)
  | 0 => [[0, 1], [1, 2], [2, 3]]
  | _ => []

/-- AOG risk date of aircraft 0, line 37. -/
def d_r : Nat → Nat
  | 0 => 5
  | _ => 0

/-- Solution vector: values for the decision variables X[a,c,s], Y[a,s],
L[d] and L_new[d] declared on lines 44 to 61 of project.py. -/
structure Sol where
  X : Nat → Nat → Nat → Int
  Y : Nat → Nat → Int
  L : Nat → Int
  L_new : Nat → Int

/-- Sum of an integer expression over an index list, the integer quicksum. -/
def isum (l : List Nat) (f : Nat → Int) : Int := (l.map f).sum

/-- Sum of a rational expression over an index list, the rational quicksum. -/
def qsum (l : List Nat) (f : Nat → ℚ) : ℚ := (l.map f).sum

/-- Domain of a binary decision variable. -/
def Binary (z : Int) : Prop := z = 0 ∨ z = 1

instance (z : Int) : Decidable (Binary z) := by unfold Binary; infer_instance

/-- Number of replacements whose repair window covers date d, lines 97 to 100:
quicksum of X[a,c,s] over all a, c and the slots s with d_s[s] <= d < d_s[s] + Delta. -/
def replacedInWindow (σ : Sol) (d : Nat) : Int :=
  isum A fun a => isum (C a) fun c =>
    isum ((S_a a).filter fun s => decide (d_s s ≤ d ∧ d < d_s s + Delta)) fun s => σ.X a c s

/-- Feasibility of a solution for the model of project.py, with the slot
capacities given by cap. The conjuncts are, in order: binary domains of X
(line 46) and Y (line 53), lower bounds 0 of the integer variables L and
L_new (lines 58 and 61), the linking constraints Y_geq_X (line 88) and
Y_leq_sumX (line 93), the lease-count constraints L_d and L_d_nonneg
(lines 101 and 102), the new-lease constraints L_new_d and L_new_d_nonneg
(lines 106 and 107), the first-day constraint L_new_d0 (lines 108 to 111),
the one-slot constraints One_slot (line 115), the capacity constraints
Slot_capacity (line 119) and the reliability constraints AOG_prevent
(lines 125 to 128). -/
def FeasibleWith (cap : Nat → Int) (σ : Sol) : Prop :=
  (∀ a ∈ A, ∀ c ∈ C a, ∀ s ∈ S_a a, Binary (σ.X a c s)) ∧
  (∀ a ∈ A, ∀ s ∈ S_a a, Binary (σ.Y a s)) ∧
  (∀ d ∈ days, 0 ≤ σ.L d ∧ 0 ≤ σ.L_new d) ∧
  (∀ a ∈ A, ∀ c ∈ C a, ∀ s ∈ S_a a, σ.X a c s ≤ σ.Y a s) ∧
  (∀ a ∈ A, ∀ s ∈ S_a a, σ.Y a s ≤ isum (C a) fun c => σ.X a c s) ∧
  (∀ d ∈ days, replacedInWindow σ d - S_begin d ≤ σ.L d ∧ 0 ≤ σ.L d) ∧
  (∀ d ∈ days.drop 1, σ.L d - σ.L (d - 1) ≤ σ.L_new d ∧ 0 ≤ σ.L_new d) ∧
  (σ.L d_0 - max 0 (S_begin_get ((d_0 : Int) - 1) 0) ≤ σ.L_new d_0) ∧
  (∀ a ∈ A, isum (S_a a) (fun s => σ.Y a s) ≤ 1) ∧
  (∀ s ∈ S, isum A (fun a => σ.Y a s) ≤ cap s) ∧
  (∀ a ∈ A_r, ∀ g ∈ G_a a, (g.length : Int) ≤
    isum g fun c => isum ((S_a a).filter fun s => decide (d_s s < d_r a)) fun s => σ.X a c s)

/-- Feasibility for the model exactly as built, with capacities m_s. -/
def Feasible (σ : Sol) : Prop := FeasibleWith m_s σ

/-- Feasibility for the variant model in which every slot capacity is 0. -/
def FeasibleZeroCap (σ : Sol) : Prop := FeasibleWith (fun _ => 0) σ

instance (cap : Nat → Int) (σ : Sol) : Decidable (FeasibleWith cap σ) := by
  unfold FeasibleWith replacedInWindow; infer_instance

instance (σ : Sol) : Decidable (Feasible σ) := by
  unfold Feasible; infer_instance

instance (σ : Sol) : Decidable (FeasibleZeroCap σ) := by
  unfold FeasibleZeroCap; infer_instance

/-- Replacement cost term, lines 65 to 68. -/
def replace_cost (σ : Sol) : ℚ :=
  qsum A fun a => qsum (C a) fun c => qsum (S_a a) fun s =>
    (σ.X a c s : ℚ) * (c_fix + P_fail a c (d_s s) * c_ex * ((d_s s : ℚ) - (d_install a c : ℚ)))

/-- Postponement cost term, lines 69 to 74. -/
def postpone_cost (σ : Sol) : ℚ :=
  qsum A fun a => qsum (C a) fun c =>
    (1 - qsum (S_a a) fun s => (σ.X a c s : ℚ)) *
      (c_fix + P_fail a c (d_0 + PH) * c_ex * (((d_0 + PH : Nat) : ℚ) - (d_install a c : ℚ)))

/-- Slot assignment cost term, line 76. -/
def slot_cost (σ : Sol) : ℚ :=
  qsum A fun a => qsum (S_a a) fun s => (σ.Y a s : ℚ) * c_s s

/-- Leasing cost term, line 78. -/
def lease_cost (σ : Sol) : ℚ :=
  qsum days fun d => (σ.L d : ℚ) * c_Ld + (σ.L_new d : ℚ) * c_Lf

/-- Total objective, line 81: sum of the four cost terms, minimized. -/
def totalCost (σ : Sol) : ℚ :=
  replace_cost σ + postpone_cost σ + slot_cost σ + lease_cost σ

/-- Concrete solution of the hardcoded instance: aircraft 0 takes slot 0 on
day 1 and replaces all four of its components there; two parts are leased
on days 1, 2 and 3, newly leased on day 1. -/
def exSol : Sol where
  X := fun a _ s => if a = 0 ∧ s = 0 then 1 else 0
  Y := fun a s => if a = 0 ∧ s = 0 then 1 else 0
  L := fun d => if d = 1 ∨ d = 2 ∨ d = 3 then 2 else 0
  L_new := fun d => if d = 1 then 2 else 0

/-- Solver termination statuses relevant to the result branch on
lines 134 to 150 of project.py. -/
inductive GRBStatus where
  | optimal
  | infeasible
  | unbounded
  | time_limit
deriving DecidableEq

/-- Message printed by the result branch, lines 134 to 150: one message for
the optimal case, a single fixed message for every other status. -/
def report_message : GRBStatus → String
  | .optimal => "최적 해 발견!"
  | _ => "최적 해를 찾지 못함"

/-- Conflicting constraint subset of the zero-capacity model: the lower
bounds of Y, the linking constraints Y_geq_X, the capacity constraints with
capacity 0, and the reliability constraint AOG_prevent for critical
aircraft 0 and the combination [0, 1]. -/
def ConflictSet (σ : Sol) : Prop :=
  (∀ a ∈ A, ∀ s ∈ S_a a, 0 ≤ σ.Y a s) ∧
  (∀ a ∈ A, ∀ c ∈ C a, ∀ s ∈ S_a a, σ.X a c s ≤ σ.Y a s) ∧
  (∀ s ∈ S, isum A (fun a => σ.Y a s) ≤ 0) ∧
  ((([0, 1] : List Nat).length : Int) ≤
    isum [0, 1] fun c => isum ((S_a 0).filter fun s => decide (d_s s < d_r 0)) fun s => σ.X 0 c s)

/-- Unfolding of isum on a cons cell. -/
lemma isum_cons (x : Nat) (xs : List Nat) (f : Nat → Int) :
    isum (x :: xs) f = f x + isum xs f := by
  simp [isum]

/-- A list sum of integers at least 1 has a term at least 1. -/
lemma exists_one_le_of_one_le_isum (l : List Nat) (f : Nat → Int)
    (hs : 1 ≤ isum l f) : ∃ c ∈ l, 1 ≤ f c := by
  induction l with
  | nil => exact absurd hs (by simp [isum])
  | cons x xs ih =>
    rw [isum_cons] at hs
    by_cases hx : 1 ≤ f x
    · exact ⟨x, List.mem_cons_self x xs, hx⟩
    · obtain ⟨c, hc, h1⟩ := ih (by omega)
      exact ⟨c, List.mem_cons_of_mem x hc, h1⟩

/-- Pointwise bounds give a bound between integer quicksums. -/
lemma isum_le_isum {l : List Nat} {f g : Nat → Int} (h : ∀ i ∈ l, f i ≤ g i) :
    isum l f ≤ isum l g :=
  List.sum_le_sum h

/-- A quicksum of nonnegative integer terms is nonnegative. -/
lemma isum_nonneg {l : List Nat} {f : Nat → Int} (h : ∀ i ∈ l, 0 ≤ f i) :
    0 ≤ isum l f := by
  unfold isum
  apply List.sum_nonneg
  intro x hx
  obtain ⟨i, hi, rfl⟩ := List.mem_map.mp hx
  exact h i hi

/-- Elimination form of the AOG_prevent constraint for aircraft 0: when the
constraint sum reaches the combination length, some component of the
combination is replaced at a slot dated before the risk date. -/
lemma aog_elim (σ : Sol)
    (hX : ∀ a ∈ A, ∀ c ∈ C a, ∀ s ∈ S_a a, Binary (σ.X a c s))
    (g : List Nat) (hgC : ∀ c ∈ g, c ∈ C 0)
    (hlen : 1 ≤ (g.length : Int))
    (hsum : (g.length : Int) ≤ isum g fun c =>
      isum ((S_a 0).filter fun s => decide (d_s s < d_r 0)) fun s => σ.X 0 c s) :
    ∃ c ∈ g, ∃ s ∈ S_a 0, d_s s < d_r 0 ∧ σ.X 0 c s = 1 := by
  obtain ⟨c, hc, hc1⟩ := exists_one_le_of_one_le_isum _ _ (le_trans hlen hsum)
  obtain ⟨s, hsmem, hs1⟩ := exists_one_le_of_one_le_isum _ _ hc1
  have hsS : s ∈ S_a 0 := (List.mem_filter.mp hsmem).1
  have hlt : d_s s < d_r 0 := of_decide_eq_true (List.mem_filter.mp hsmem).2
  have hb : σ.X 0 c s = 0 ∨ σ.X 0 c s = 1 := hX 0 (by decide) c (hgC c hc) s hsS
  exact ⟨c, hc, s, hsS, hlt, by omega⟩

/-- Joint refutation of the ConflictSet constraints: with all capacities 0
the Y variables vanish on the dated slots, forcing every X of aircraft 0 to
0 there, while AOG_prevent demands two of them. -/
lemma zero_cap_core (σ : Sol)
    (hY0 : ∀ a ∈ A, ∀ s ∈ S_a a, 0 ≤ σ.Y a s)
    (hlink : ∀ a ∈ A, ∀ c ∈ C a, ∀ s ∈ S_a a, σ.X a c s ≤ σ.Y a s)
    (hcap : ∀ s ∈ S, isum A (fun a => σ.Y a s) ≤ 0)
    (haog : (([0, 1] : List Nat).length : Int) ≤
      isum [0, 1] fun c => isum ((S_a 0).filter fun s => decide (d_s s < d_r 0)) fun s => σ.X 0 c s) :
    False := by
  have hf : (S_a 0).filter (fun s => decide (d_s s < d_r 0)) = [0, 1] := by decide
  rw [hf] at haog
  norm_num [isum] at haog
  have l00 := hlink 0 (by decide) 0 (by decide) 0 (by decide)
  have l01 := hlink 0 (by decide) 0 (by decide) 1 (by decide)
  have l10 := hlink 0 (by decide) 1 (by decide) 0 (by decide)
  have l11 := hlink 0 (by decide) 1 (by decide) 1 (by decide)
  have c0 := hcap 0 (by decide)
  have c1 := hcap 1 (by decide)
  norm_num [isum, A] at c0 c1
  have y10 := hY0 1 (by decide) 0 (by decide)
  have y11 := hY0 1 (by decide) 1 (by decide)
  omega

/-- Claim C1: in every feasible solution, for every aircraft and every slot
available to it, the assignment indicator Y[a,s] equals 1 exactly when some
component replacement indicator X[a,c,s] equals 1 for that pair. -/
theorem assignment_linking_iff (σ : Sol) (h : Feasible σ) :
    ∀ a ∈ A, ∀ s ∈ S_a a, (σ.Y a s = 1 ↔ ∃ c ∈ C a, σ.X a c s = 1) := by
  unfold Feasible FeasibleWith at h
  obtain ⟨hX, hY, -, hlink, hYle, -⟩ := h
  intro a ha s hs
  constructor
  · intro h1
    have hle := hYle a ha s hs
    rw [h1] at hle
    obtain ⟨c, hc, hfc⟩ := exists_one_le_of_one_le_isum _ _ hle
    have hb : σ.X a c s = 0 ∨ σ.X a c s = 1 := hX a ha c hc s hs
    exact ⟨c, hc, by omega⟩
  · rintro ⟨c, hc, hXc⟩
    have hl := hlink a ha c hc s hs
    have hb : σ.Y a s = 0 ∨ σ.Y a s = 1 := hY a ha s hs
    rw [hXc] at hl
    omega

/-- Claim C1 witness: the linking equivalence evaluated on the concrete
feasible solution exSol at aircraft 0 and slot 0. -/
theorem assignment_linking_instance :
    exSol.Y 0 0 = 1 ↔ ∃ c ∈ C 0, exSol.X 0 c 0 = 1 :=
  assignment_linking_iff exSol (by decide) 0 (by decide) 0 (by decide)

/-- Claim C2: in every feasible solution, for every critical aircraft and
every listed component combination, at least one component of the
combination is replaced at a slot dated strictly before the risk date. -/
theorem aog_prevention_some_replacement (σ : Sol) (h : Feasible σ) :
    ∀ a ∈ A_r, ∀ g ∈ G_a a, ∃ c ∈ g, ∃ s ∈ S_a a, d_s s < d_r a ∧ σ.X a c s = 1 := by
  unfold Feasible FeasibleWith at h
  obtain ⟨hX, -, -, -, -, -, -, -, -, -, haog⟩ := h
  intro a ha g hg
  simp only [A_r, List.mem_singleton] at ha
  subst ha
  have hsum := haog 0 (by decide) g hg
  simp only [G_a, List.mem_cons, List.not_mem_nil, or_false] at hg
  rcases hg with rfl | rfl | rfl
  · exact aog_elim σ hX _ (by decide) (by norm_num) hsum
  · exact aog_elim σ hX _ (by decide) (by norm_num) hsum
  · exact aog_elim σ hX _ (by decide) (by norm_num) hsum

/-- Claim C2 witness: on exSol, the combination [0, 1] of aircraft 0 has a
component replaced before day 5. -/
theorem aog_prevention_instance :
    ∃ c ∈ ([0, 1] : List Nat), ∃ s ∈ S_a 0, d_s s < d_r 0 ∧ exSol.X 0 c s = 1 :=
  aog_prevention_some_replacement exSol (by decide) 0 (by decide) [0, 1] (by decide)

/-- Claim C3: in every feasible solution, every aircraft is assigned to at
most one slot, and no slot holds more aircraft than its capacity m_s. -/
theorem one_slot_and_capacity (σ : Sol) (h : Feasible σ) :
    (∀ a ∈ A, isum (S_a a) (fun s => σ.Y a s) ≤ 1) ∧
    (∀ s ∈ S, isum A (fun a => σ.Y a s) ≤ m_s s) := by
  unfold Feasible FeasibleWith at h
  obtain ⟨-, -, -, -, -, -, -, -, hone, hcap, -⟩ := h
  exact ⟨hone, hcap⟩

/-- Claim C3 witness: both invariants evaluated on exSol at aircraft 0 and
slot 0. -/
theorem one_slot_and_capacity_instance :
    isum (S_a 0) (fun s => exSol.Y 0 s) ≤ 1 ∧ isum A (fun a => exSol.Y a 0) ≤ m_s 0 :=
  ⟨(one_slot_and_capacity exSol (by decide)).1 0 (by decide),
   (one_slot_and_capacity exSol (by decide)).2 0 (by decide)⟩

/-- Claim C4: in every feasible solution, the leased count of every date is
at least the positive shortfall between the replacements whose repair
window covers the date and the spares on hand. -/
theorem lease_shortfall_bound (σ : Sol) (h : Feasible σ) :
    ∀ d ∈ days, max 0 (replacedInWindow σ d - S_begin d) ≤ σ.L d := by
  unfold Feasible FeasibleWith at h
  obtain ⟨-, -, -, -, -, hLd, -⟩ := h
  intro d hd
  exact max_le (hLd d hd).2 (hLd d hd).1

/-- Claim C4 witness: the shortfall bound on exSol at date 1. -/
theorem lease_shortfall_instance :
    max 0 (replacedInWindow exSol 1 - S_begin 1) ≤ exSol.L 1 :=
  lease_shortfall_bound exSol (by decide) 1 (by decide)

/-- Claim C5: in every feasible solution, the newly leased count of every
date after the first is at least the positive day-over-day increase of the
leased count. -/
theorem new_lease_increase_bound (σ : Sol) (h : Feasible σ) :
    ∀ d ∈ days.drop 1, max 0 (σ.L d - σ.L (d - 1)) ≤ σ.L_new d := by
  unfold Feasible FeasibleWith at h
  obtain ⟨-, -, -, -, -, -, hLn, -⟩ := h
  intro d hd
  exact max_le (hLn d hd).2 (hLn d hd).1

/-- Claim C5 witness: the new-lease bound on exSol at date 1. -/
theorem new_lease_increase_instance :
    max 0 (exSol.L 1 - exSol.L 0) ≤ exSol.L_new 1 :=
  new_lease_increase_bound exSol (by decide) 1 (by decide)

/-- Claim C6: the hardcoded instance is feasible, and on every feasible
solution the total objective equals the sum of the replacement, postponed
failure, slot and leasing cost terms within a tolerance of one millionth,
so the reported optimal objective matches the sum of the four terms at the
returned variable values. -/
theorem example_scenario_objective :
    (∃ σ, Feasible σ) ∧
    ∀ σ, Feasible σ →
      |totalCost σ - (replace_cost σ + postpone_cost σ + slot_cost σ + lease_cost σ)| ≤
        1 / 1000000 := by
  refine ⟨⟨exSol, by decide⟩, ?_⟩
  intro σ hσ
  unfold totalCost
  simp only [sub_self, abs_zero]
  norm_num

/-- Claim C6 witness: the objective decomposition evaluated on exSol. -/
theorem example_scenario_instance :
    |totalCost exSol -
      (replace_cost exSol + postpone_cost exSol + slot_cost exSol + lease_cost exSol)| ≤
      1 / 1000000 :=
  example_scenario_objective.2 exSol (by decide)

/-- Claim C7: with every slot capacity set to 0 the model admits no feasible
solution, and the non-empty ConflictSet subset of its constraints, which
contains the capacity and AOG_prevent reliability constraints, is already
jointly unsatisfiable. -/
theorem zero_capacity_infeasible :
    (¬ ∃ σ, FeasibleZeroCap σ) ∧ (¬ ∃ σ, ConflictSet σ) := by
  constructor
  · rintro ⟨σ, h⟩
    unfold FeasibleZeroCap FeasibleWith at h
    obtain ⟨-, hY, -, hlink, -, -, -, -, -, hcap, haog⟩ := h
    refine zero_cap_core σ ?_ hlink hcap (haog 0 (by decide) [0, 1] (by decide))
    intro a ha s hs
    have hb : σ.Y a s = 0 ∨ σ.Y a s = 1 := hY a ha s hs
    omega
  · rintro ⟨σ, hY0, hlink, hcap, haog⟩
    exact zero_cap_core σ hY0 hlink hcap haog

/-- Claim C8 counterexample: the result branch prints the same message for
the infeasible, time-limit and unbounded statuses, so the program does not
distinguish them. -/
theorem status_report_not_distinguishing :
    report_message GRBStatus.infeasible = report_message GRBStatus.time_limit ∧
    report_message GRBStatus.time_limit = report_message GRBStatus.unbounded :=
  ⟨rfl, rfl⟩

/-- Claim C8 amended: when no optimal solution is found the program prints
one fixed failure message, identical for the infeasible, time-limit and
unbounded statuses; only optimal versus non-optimal is distinguished. -/
theorem status_report_single_message :
    report_message GRBStatus.infeasible = "최적 해를 찾지 못함" ∧
    report_message GRBStatus.time_limit = "최적 해를 찾지 못함" ∧
    report_message GRBStatus.unbounded = "최적 해를 찾지 못함" ∧
    report_message GRBStatus.optimal ≠ "최적 해를 찾지 못함" := by
  refine ⟨rfl, rfl, rfl, ?_⟩
  decide

/-- Claim C9: in every feasible solution, every component of every aircraft
is replaced in at most one slot, and the postponement factor one minus the
sum of its replacement indicators is 0 or 1, never negative. -/
theorem component_replaced_at_most_once (σ : Sol) (h : Feasible σ) :
    ∀ a ∈ A, ∀ c ∈ C a,
      isum (S_a a) (fun s => σ.X a c s) ≤ 1 ∧
      (1 - isum (S_a a) (fun s => σ.X a c s) = 0 ∨
        1 - isum (S_a a) (fun s => σ.X a c s) = 1) := by
  unfold Feasible FeasibleWith at h
  obtain ⟨hX, -, -, hlink, -, -, -, -, hone, -⟩ := h
  intro a ha c hc
  have hle : isum (S_a a) (fun s => σ.X a c s) ≤ isum (S_a a) (fun s => σ.Y a s) :=
    isum_le_isum (fun s hs => hlink a ha c hc s hs)
  have h1 := hone a ha
  have hnn : 0 ≤ isum (S_a a) (fun s => σ.X a c s) := by
    apply isum_nonneg
    intro s hs
    have hb : σ.X a c s = 0 ∨ σ.X a c s = 1 := hX a ha c hc s hs
    omega
  omega

/-- Claim C9 witness: the at-most-once bound on exSol at aircraft 0 and
component 0. -/
theorem component_replaced_instance :
    isum (S_a 0) (fun s => exSol.X 0 0 s) ≤ 1 ∧
    (1 - isum (S_a 0) (fun s => exSol.X 0 0 s) = 0 ∨
      1 - isum (S_a 0) (fun s => exSol.X 0 0 s) = 1) :=
  component_replaced_at_most_once exSol (by decide) 0 (by decide) 0 (by decide)

/-- Claim C10: the dictionary lookup of the first-day constraint L_new_d0
falls outside the keys and yields the default 0, so the constraint reduces
to L_new at d_0 being at least L at d_0: every part leased on the first day
counts as newly leased. -/
theorem first_day_lease_reduction (σ : Sol) (h : Feasible σ) :
    max 0 (S_begin_get ((d_0 : Int) - 1) 0) = 0 ∧ σ.L d_0 ≤ σ.L_new d_0 := by
  have hmax : max 0 (S_begin_get ((d_0 : Int) - 1) 0) = 0 := by decide
  unfold Feasible FeasibleWith at h
  obtain ⟨-, -, -, -, -, -, -, hL0, -⟩ := h
  rw [hmax] at hL0
  exact ⟨hmax, by omega⟩

/-- Claim C10 witness: the first-day reduction evaluated on exSol. -/
theorem first_day_lease_instance :
    max 0 (S_begin_get ((d_0 : Int) - 1) 0) = 0 ∧ exSol.L d_0 ≤ exSol.L_new d_0 :=
  first_day_lease_reduction exSol (by decide)

end AircraftMaint
